import Mathlib

/-
Verification of the i-xero2 adapter (src/i_xero2/i_xero.py) against its
specification.  The Python class XeroInterface is shallowly embedded:
every vendor (xero-python SDK) remote call is a parameter of type
`Except PyError _` (or a function-valued oracle when the call depends on
the request), Python exceptions are `Except.error`, and each adapter
method becomes a pure Lean function translated clause by clause from the
source.  The polymorphic keyword-argument selectors (id / explicit list /
filter) are split into one Lean function per branch of the Python
`if id: ... elif ...: ... else: ...` dispatch.
-/

deriving instance DecidableEq for Except

namespace IXero

/-- Python exception classes that can cross the adapter's boundary:
the two vendor exception classes the source names
(AccountingBadRequestException, NotFoundException), the builtin errors
the source can raise itself (TypeError from subscripting None,
AttributeError from attribute access on None or on a list, IndexError
from indexing an empty response list), and a stand-in for any other
vendor or transport error class. -/
inductive PyError where
  | accountingBadRequest
  | notFoundException
  | typeError
  | attributeError
  | indexError
  | otherError
deriving DecidableEq, Repr

/-- Token record persisted in the credential store, with the fields the
spec's data model names; the storage-internal identity field is already
stripped (get_token pops it). -/
structure OAuthToken where
  access_token : String
  refresh_token : String
  expires_at : Nat
  token_type : String
  scope : String
deriving DecidableEq, Repr

/-- Vendor SDK access-token validity check used at i_xero.py:100
(OAuth2Token.is_access_token_valid): the access portion is valid while
the current time is before expires_at. -/
def is_access_token_valid (t : OAuthToken) (now : Nat) : Bool :=
  now < t.expires_at

/-- State of a constructed ApiClient: the token it currently holds. -/
structure ClientState where
  token : OAuthToken
deriving DecidableEq, Repr

/-- Environment of a set_client run: the current time and the token the
vendor refresh call (refresh_access_token, i_xero.py:101) would mint. -/
structure XeroEnv where
  now : Nat
  freshToken : OAuthToken
deriving DecidableEq, Repr

/-- Observable outcome of set_client: the client field it assigns
(None is modelled as `none`), how many times the vendor refresh path ran,
and how many times notify_to_reauthorize ran. -/
structure SetClientResult where
  client : Option ClientState
  refreshCalls : Nat
  notifyCalls : Nat
deriving DecidableEq, Repr

/-- XeroInterface.set_client (i_xero.py:71-105).  Line 73 interpolates
token["expires_at"] into a debug message BEFORE the `if token:` presence
check, so when get_token returned None the subscript raises TypeError and
the `else` branch (client = None; notify_to_reauthorize) is never
reached.  With a token present, the client is built and
set_oauth2_token(token) stores it; then line 100 checks
is_access_token_valid and line 101 refreshes eagerly when it fails. -/
def set_client (stored : Option OAuthToken) (env : XeroEnv) :
    Except PyError SetClientResult :=
  match stored with
  | none => Except.error PyError.typeError
  | some token =>
    if is_access_token_valid token env.now then
      Except.ok { client := some { token := token }, refreshCalls := 0, notifyCalls := 0 }
    else
      Except.ok { client := some { token := env.freshToken }, refreshCalls := 1, notifyCalls := 0 }

/-- Operation the credential store receives from store_oauth2_token. -/
inductive StoreOp where
  | upsert (t : OAuthToken)
  | deleteKey
deriving DecidableEq, Repr

/-- XeroInterface.store_oauth2_token (i_xero.py:130-140): a truthy token
is replace_one-upserted under the fixed key; a falsy token triggers
delete_one under that key.  Returns the new store content and the
operation issued. -/
def store_oauth2_token (token : Option OAuthToken) (store : Option OAuthToken) :
    Option OAuthToken × StoreOp :=
  match token, store with
  | some t, _ => (some t, StoreOp.upsert t)
  | none, _ => (none, StoreOp.deleteKey)

/-- Invoice entity, restricted to the fields this adapter touches or the
tests observe: identity, the status field driving soft-delete, and the
reference field used as the frame witness. -/
structure Invoice where
  invoice_id : String
  status : String
  reference : String
deriving DecidableEq, Repr

/-- Item entity (items have no soft-delete status in this adapter). -/
structure Item where
  item_id : String
  code : String
  name : String
deriving DecidableEq, Repr

/-- Manual journal entity with its soft-delete status and a frame field. -/
structure ManualJournal where
  manual_journal_id : String
  status : String
  narration : String
deriving DecidableEq, Repr

/-- Payment entity. -/
structure Payment where
  payment_id : String
  status : String
deriving DecidableEq, Repr

/-- Organization entity (read-only in this adapter). -/
structure Organization where
  organisation_id : String
deriving DecidableEq, Repr

/-- Repeating invoice entity. -/
structure RepeatingInvoice where
  repeating_invoice_id : String
  reference : String
deriving DecidableEq, Repr

/-- Value a read-by-id adapter method can return in Python: a single
entity (len == 1 branch), None (length check failed), or a list (the
`return []` of an exception handler, or the filter branch). -/
inductive ReadResult (α : Type) where
  | one (a : α)
  | noneFound
  | list (xs : List α)
deriving DecidableEq, Repr

/-- Embedding of the `try: body except AccountingBadRequestException:
logger.error(...)` / `return empty` template every adapter method uses:
a raised bad-request error is converted to the method's empty result,
anything else passes through. -/
def guard_bad_request {α : Type} (empty : α) (body : Except PyError α) :
    Except PyError α :=
  match body with
  | Except.error PyError.accountingBadRequest => Except.ok empty
  | r => r

/-- Embedding of the extra `except NotFoundException` clause that only
read_items has (i_xero.py:435-436). -/
def guard_not_found {α : Type} (empty : α) (body : Except PyError α) :
    Except PyError α :=
  match body with
  | Except.error PyError.notFoundException => Except.ok empty
  | r => r

/-- XeroInterface.create_invoices (i_xero.py:218-240): one vendor batch
call, unwraps invoices.invoices, bad request is downgraded to []. -/
def create_invoices (vendor : Except PyError (List Invoice)) :
    Except PyError (List Invoice) :=
  guard_bad_request [] vendor

/-- XeroInterface.read_invoices with the id selector (i_xero.py:259-271,
279-282): get_invoice, then return the single invoice when the response
list has exactly one element, None otherwise; bad request gives []. -/
def read_invoices_by_id (vendor_get : Except PyError (List Invoice)) :
    Except PyError (ReadResult Invoice) :=
  guard_bad_request (ReadResult.list [])
    (match vendor_get with
     | Except.ok [inv] => Except.ok (ReadResult.one inv)
     | Except.ok _ => Except.ok ReadResult.noneFound
     | Except.error e => Except.error e)

/-- XeroInterface.read_invoices with the filter selector
(i_xero.py:272-282): get_invoices, unwraps the list; bad request
gives []. -/
def read_invoices_filter (vendor_list : Except PyError (List Invoice)) :
    Except PyError (List Invoice) :=
  guard_bad_request [] vendor_list

/-- XeroInterface.update_invoices (i_xero.py:284-309): one
update_or_create batch call on the given list; bad request gives []. -/
def update_invoices (vendor_update : List Invoice → Except PyError (List Invoice))
    (invoice_list : List Invoice) : Except PyError (List Invoice) :=
  guard_bad_request [] (vendor_update invoice_list)

/-- XeroInterface.mark_invoice_deleted (i_xero.py:363-367) on an actual
Invoice object: DRAFT becomes DELETED, AUTHORISED becomes VOIDED, any
other status is left as is; no other field is assigned. -/
def mark_invoice_deleted (invoice : Invoice) : Invoice :=
  if invoice.status = "DRAFT" then { invoice with status := "DELETED" }
  else if invoice.status = "AUTHORISED" then { invoice with status := "VOIDED" }
  else invoice

/-- mark_invoice_deleted as called at i_xero.py:334 on the dynamic value
read_invoices(id=...) returned: on None or on a list (the [] of an
exception handler) the attribute access invoice.status raises
AttributeError, which no handler in delete_invoices catches. -/
def mark_invoice_deleted_dyn (invoice : ReadResult Invoice) :
    Except PyError Invoice :=
  match invoice with
  | ReadResult.one inv => Except.ok (mark_invoice_deleted inv)
  | ReadResult.noneFound => Except.error PyError.attributeError
  | ReadResult.list _ => Except.error PyError.attributeError

/-- XeroInterface.delete_invoices with the id selector
(i_xero.py:332-337, 358-361): read by id, mark the result deleted
without a presence check, then batch-update the singleton list; the
surrounding handler catches only the bad-request class. -/
def delete_invoices_by_id (vendor_get : Except PyError (List Invoice))
    (vendor_update : List Invoice → Except PyError (List Invoice)) :
    Except PyError (List Invoice) :=
  guard_bad_request []
    (match read_invoices_by_id vendor_get with
     | Except.error e => Except.error e
     | Except.ok r =>
       match mark_invoice_deleted_dyn r with
       | Except.error e => Except.error e
       | Except.ok marked => update_invoices vendor_update [marked])

/-- XeroInterface.delete_invoices with an explicit invoice_list
(i_xero.py:338-343): mark each invoice, then one batch update. -/
def delete_invoices_list (vendor_update : List Invoice → Except PyError (List Invoice))
    (invoice_list : List Invoice) : Except PyError (List Invoice) :=
  guard_bad_request []
    (update_invoices vendor_update (invoice_list.map mark_invoice_deleted))

/-- XeroInterface.delete_invoices with the filter selector
(i_xero.py:344-356): read by filter; an empty read short-circuits to []
before any update; otherwise mark each invoice and batch-update.  The
second component counts the update_invoices invocations. -/
def delete_invoices_filter (vendor_list : Except PyError (List Invoice))
    (vendor_update : List Invoice → Except PyError (List Invoice)) :
    Except PyError (List Invoice) × Nat :=
  match read_invoices_filter vendor_list with
  | Except.error e => (Except.error e, 0)
  | Except.ok invoice_list_read =>
    if invoice_list_read.isEmpty then (Except.ok [], 0)
    else
      (guard_bad_request []
        (update_invoices vendor_update (invoice_list_read.map mark_invoice_deleted)), 1)

/-- XeroInterface.create_items (i_xero.py:370-394). -/
def create_items (vendor : Except PyError (List Item)) :
    Except PyError (List Item) :=
  guard_bad_request [] vendor

/-- XeroInterface.read_items with the id selector (i_xero.py:413-425,
433-438): like read_invoices, but read_items additionally catches the
vendor not-found class and returns [] for it. -/
def read_items_by_id (vendor_get : Except PyError (List Item)) :
    Except PyError (ReadResult Item) :=
  guard_not_found (ReadResult.list [])
    (guard_bad_request (ReadResult.list [])
      (match vendor_get with
       | Except.ok [item] => Except.ok (ReadResult.one item)
       | Except.ok _ => Except.ok ReadResult.noneFound
       | Except.error e => Except.error e))

/-- XeroInterface.read_items with the filter selector (i_xero.py:426-438),
with the same pair of handlers. -/
def read_items_filter (vendor_list : Except PyError (List Item)) :
    Except PyError (List Item) :=
  guard_not_found [] (guard_bad_request [] vendor_list)

/-- XeroInterface.update_items (i_xero.py:440-465). -/
def update_items (vendor_update : List Item → Except PyError (List Item))
    (item_list : List Item) : Except PyError (List Item) :=
  guard_bad_request [] (vendor_update item_list)

/-- Sequence of per-item vendor delete_item calls issued by the loops in
delete_items (i_xero.py:494-508): stops at the first raised error;
the second component counts the vendor calls made. -/
def run_item_deletes (vendor_delete : Item → Except PyError Unit) :
    List Item → Except PyError Unit × Nat
  | [] => (Except.ok (), 0)
  | item :: rest =>
    match vendor_delete item with
    | Except.ok _ =>
      let r := run_item_deletes vendor_delete rest
      (r.1, r.2 + 1)
    | Except.error e => (Except.error e, 1)

/-- XeroInterface.delete_items with the id selector (i_xero.py:488-492,
510-513): one vendor delete_item call, then the function-level
`return []`; bad request is caught and also ends in `return []`. -/
def delete_items_by_id (vendor_delete : Except PyError Unit) :
    Except PyError (List Item) :=
  match vendor_delete with
  | Except.ok _ => Except.ok []
  | Except.error PyError.accountingBadRequest => Except.ok []
  | Except.error e => Except.error e

/-- XeroInterface.delete_items with an explicit item_list
(i_xero.py:493-498, 510-513): per-item vendor deletes, then
`return []`. -/
def delete_items_list (vendor_delete : Item → Except PyError Unit)
    (item_list : List Item) : Except PyError (List Item) :=
  match (run_item_deletes vendor_delete item_list).1 with
  | Except.ok _ => Except.ok []
  | Except.error PyError.accountingBadRequest => Except.ok []
  | Except.error e => Except.error e

/-- XeroInterface.delete_items with the filter selector
(i_xero.py:499-513): read by filter; an empty read short-circuits to []
before any vendor delete; otherwise per-item deletes and `return []`.
The second component counts the vendor delete_item calls. -/
def delete_items_filter (vendor_read : Except PyError (List Item))
    (vendor_delete : Item → Except PyError Unit) :
    Except PyError (List Item) × Nat :=
  match read_items_filter vendor_read with
  | Except.error e => (Except.error e, 0)
  | Except.ok item_list_read =>
    if item_list_read.isEmpty then (Except.ok [], 0)
    else
      let r := run_item_deletes vendor_delete item_list_read
      (match r.1 with
       | Except.ok _ => Except.ok []
       | Except.error PyError.accountingBadRequest => Except.ok []
       | Except.error e => Except.error e, r.2)

/-- XeroInterface.create_manual_journals (i_xero.py:516-539). -/
def create_manual_journals (vendor : Except PyError (List ManualJournal)) :
    Except PyError (List ManualJournal) :=
  guard_bad_request [] vendor

/-- XeroInterface.read_manual_journals with the id selector
(i_xero.py:558-569, 576-579). -/
def read_manual_journals_by_id (vendor_get : Except PyError (List ManualJournal)) :
    Except PyError (ReadResult ManualJournal) :=
  guard_bad_request (ReadResult.list [])
    (match vendor_get with
     | Except.ok [mj] => Except.ok (ReadResult.one mj)
     | Except.ok _ => Except.ok ReadResult.noneFound
     | Except.error e => Except.error e)

/-- XeroInterface.read_manual_journals with the filter selector
(i_xero.py:570-579). -/
def read_manual_journals_filter (vendor_list : Except PyError (List ManualJournal)) :
    Except PyError (List ManualJournal) :=
  guard_bad_request [] vendor_list

/-- XeroInterface.update_manual_journals (i_xero.py:581-606). -/
def update_manual_journals
    (vendor_update : List ManualJournal → Except PyError (List ManualJournal))
    (manual_journal_list : List ManualJournal) : Except PyError (List ManualJournal) :=
  guard_bad_request [] (vendor_update manual_journal_list)

/-- XeroInterface.mark_manual_journal_deleted (i_xero.py:660-664):
DRAFT becomes DELETED, POSTED becomes VOIDED, any other status is left
as is; no other field is assigned. -/
def mark_manual_journal_deleted (manual_journal : ManualJournal) : ManualJournal :=
  if manual_journal.status = "DRAFT" then { manual_journal with status := "DELETED" }
  else if manual_journal.status = "POSTED" then { manual_journal with status := "VOIDED" }
  else manual_journal

/-- mark_manual_journal_deleted as called at i_xero.py:631 on the dynamic
value read_manual_journals(id=...) returned. -/
def mark_manual_journal_deleted_dyn (manual_journal : ReadResult ManualJournal) :
    Except PyError ManualJournal :=
  match manual_journal with
  | ReadResult.one mj => Except.ok (mark_manual_journal_deleted mj)
  | ReadResult.noneFound => Except.error PyError.attributeError
  | ReadResult.list _ => Except.error PyError.attributeError

/-- XeroInterface.delete_manual_journals with the id selector
(i_xero.py:629-634, 655-658). -/
def delete_manual_journals_by_id (vendor_get : Except PyError (List ManualJournal))
    (vendor_update : List ManualJournal → Except PyError (List ManualJournal)) :
    Except PyError (List ManualJournal) :=
  guard_bad_request []
    (match read_manual_journals_by_id vendor_get with
     | Except.error e => Except.error e
     | Except.ok r =>
       match mark_manual_journal_deleted_dyn r with
       | Except.error e => Except.error e
       | Except.ok marked => update_manual_journals vendor_update [marked])

/-- XeroInterface.delete_manual_journals with an explicit list
(i_xero.py:635-640). -/
def delete_manual_journals_list
    (vendor_update : List ManualJournal → Except PyError (List ManualJournal))
    (manual_journal_list : List ManualJournal) : Except PyError (List ManualJournal) :=
  guard_bad_request []
    (update_manual_journals vendor_update
      (manual_journal_list.map mark_manual_journal_deleted))

/-- XeroInterface.delete_manual_journals with the filter selector
(i_xero.py:641-653): an empty read short-circuits to [] before any
update.  The second component counts the update invocations. -/
def delete_manual_journals_filter (vendor_list : Except PyError (List ManualJournal))
    (vendor_update : List ManualJournal → Except PyError (List ManualJournal)) :
    Except PyError (List ManualJournal) × Nat :=
  match read_manual_journals_filter vendor_list with
  | Except.error e => (Except.error e, 0)
  | Except.ok mj_list_read =>
    if mj_list_read.isEmpty then (Except.ok [], 0)
    else
      (guard_bad_request []
        (update_manual_journals vendor_update
          (mj_list_read.map mark_manual_journal_deleted)), 1)

/-- XeroInterface.read_organizations (i_xero.py:667-685). -/
def read_organizations (vendor : Except PyError (List Organization)) :
    Except PyError (List Organization) :=
  guard_bad_request [] vendor

/-- XeroInterface.create_payments (i_xero.py:688-709). -/
def create_payments (vendor : Except PyError (List Payment)) :
    Except PyError (List Payment) :=
  guard_bad_request [] vendor

/-- XeroInterface.read_payments with the id selector
(i_xero.py:728-739, 746-749). -/
def read_payments_by_id (vendor_get : Except PyError (List Payment)) :
    Except PyError (ReadResult Payment) :=
  guard_bad_request (ReadResult.list [])
    (match vendor_get with
     | Except.ok [p] => Except.ok (ReadResult.one p)
     | Except.ok _ => Except.ok ReadResult.noneFound
     | Except.error e => Except.error e)

/-- XeroInterface.read_payments with the filter selector
(i_xero.py:740-749). -/
def read_payments_filter (vendor_list : Except PyError (List Payment)) :
    Except PyError (List Payment) :=
  guard_bad_request [] vendor_list

/-- XeroInterface.delete_payments with the id selector
(i_xero.py:772-779, 809-812): a dedicated vendor delete_payment call
whose response list is returned as is. -/
def delete_payments_by_id (vendor_delete : Except PyError (List Payment)) :
    Except PyError (List Payment) :=
  guard_bad_request [] vendor_delete

/-- Sequence of per-payment vendor delete_payment calls issued by the
loops in delete_payments (i_xero.py:784-790, 800-806): each response has
its element 0 appended to the accumulator, so an empty response raises
IndexError; the second component counts the vendor calls made. -/
def run_payment_deletes (vendor_delete : Payment → Except PyError (List Payment)) :
    List Payment → Except PyError (List Payment) × Nat
  | [] => (Except.ok [], 0)
  | p :: rest =>
    match vendor_delete p with
    | Except.ok [] => (Except.error PyError.indexError, 1)
    | Except.ok (x :: _) =>
      let r := run_payment_deletes vendor_delete rest
      (match r.1 with
       | Except.ok acc => Except.ok (x :: acc)
       | Except.error e => Except.error e, r.2 + 1)
    | Except.error e => (Except.error e, 1)

/-- XeroInterface.delete_payments with an explicit payment_list
(i_xero.py:781-791, 809-812). -/
def delete_payments_list (vendor_delete : Payment → Except PyError (List Payment))
    (payment_list : List Payment) : Except PyError (List Payment) :=
  guard_bad_request [] (run_payment_deletes vendor_delete payment_list).1

/-- XeroInterface.delete_payments with the filter selector
(i_xero.py:793-812): an empty read short-circuits to [] before any
vendor delete.  The second component counts the vendor delete calls. -/
def delete_payments_filter (vendor_read : Except PyError (List Payment))
    (vendor_delete : Payment → Except PyError (List Payment)) :
    Except PyError (List Payment) × Nat :=
  match read_payments_filter vendor_read with
  | Except.error e => (Except.error e, 0)
  | Except.ok payment_list_read =>
    if payment_list_read.isEmpty then (Except.ok [], 0)
    else
      let r := run_payment_deletes vendor_delete payment_list_read
      (guard_bad_request [] r.1, r.2)

/-- XeroInterface.get_repeating_invoice (i_xero.py:814-838): indexes
element 0 of the response (IndexError on an empty response propagates);
bad request leaves the initial None in place. -/
def get_repeating_invoice (vendor : Except PyError (List RepeatingInvoice)) :
    Except PyError (Option RepeatingInvoice) :=
  guard_bad_request none
    (match vendor with
     | Except.ok [] => Except.error PyError.indexError
     | Except.ok (x :: _) => Except.ok (some x)
     | Except.error e => Except.error e)

/-- XeroInterface.get_repeating_invoices (i_xero.py:840-863). -/
def get_repeating_invoices (vendor : Except PyError (List RepeatingInvoice)) :
    Except PyError (List RepeatingInvoice) :=
  guard_bad_request [] vendor

/-- Concrete expired token used to instantiate the token-manager theorems. -/
def tok_expired : OAuthToken :=
  { access_token := "a", refresh_token := "r", expires_at := 5,
    token_type := "Bearer", scope := "accounting.transactions" }

/-- Concrete fresh token the modelled vendor refresh call mints. -/
def tok_fresh : OAuthToken :=
  { access_token := "b", refresh_token := "r", expires_at := 100,
    token_type := "Bearer", scope := "accounting.transactions" }

/-- Concrete environment: current time 10, refresh mints tok_fresh. -/
def env0 : XeroEnv := { now := 10, freshToken := tok_fresh }

/-- Concrete DRAFT invoice used to instantiate the delete-by-id theorem. -/
def inv_draft : Invoice :=
  { invoice_id := "inv-1", status := "DRAFT", reference := "test" }

/-- Claim C1: with a persisted token whose access-token validity check
fails, set_client invokes the refresh path exactly once before returning
and hands back a client holding the freshly minted token (valid by the
hypothesis on the refresh output), so the caller never receives a client
backed by a known-expired access token; with a valid stored token no
refresh happens and the stored token is kept. -/
theorem set_client_refresh_policy (t : OAuthToken) (env : XeroEnv)
    (hfresh : is_access_token_valid env.freshToken env.now = true) :
    set_client (some t) env = Except.ok
      { client := some { token := if is_access_token_valid t env.now then t else env.freshToken },
        refreshCalls := if is_access_token_valid t env.now then 0 else 1,
        notifyCalls := 0 } ∧
    is_access_token_valid
      (if is_access_token_valid t env.now then t else env.freshToken) env.now = true := by
  cases hv : is_access_token_valid t env.now with
  | true => simp [set_client, hv]
  | false => simp [set_client, hv, hfresh]

/-- Witness for C1 at the concrete expired token tok_expired in env0. -/
theorem set_client_refresh_policy_witness :
    is_access_token_valid env0.freshToken env0.now = true ∧
    (set_client (some tok_expired) env0 = Except.ok
      { client := some { token :=
          if is_access_token_valid tok_expired env0.now then tok_expired else env0.freshToken },
        refreshCalls := if is_access_token_valid tok_expired env0.now then 0 else 1,
        notifyCalls := 0 } ∧
     is_access_token_valid
       (if is_access_token_valid tok_expired env0.now then tok_expired else env0.freshToken)
       env0.now = true) :=
  ⟨by decide, set_client_refresh_policy tok_expired env0 (by decide)⟩

/-- Claim C2 (code divergence): with no persisted token, set_client
raises TypeError at the debug interpolation token["expires_at"]
(i_xero.py:73), which runs before the presence check, so the branch that
would set the client to None and call notify_to_reauthorize is never
reached: construction neither completes nor notifies. -/
theorem set_client_no_token_raises :
    set_client none env0 = Except.error PyError.typeError := rfl

/-- Counterexample to claim C3 as stated: for the invoice resource,
read-by-id in the presence of a vendor not-found error re-raises it to
the caller (read_invoices has no handler for that class), so read with a
non-matching identifier does not always return None or empty without
raising. -/
theorem read_invoices_not_found_raises :
    read_invoices_by_id (Except.error PyError.notFoundException)
      = Except.error PyError.notFoundException := rfl

/-- Claim C3 (amended): read-by-id on a vendor response whose entity
list does not have exactly one element returns None for every resource
type; a vendor not-found error is converted to an empty result only by
read_items, and propagates to the caller from the invoice, manual
journal and payment readers. -/
theorem read_by_id_no_match_policy (xs : List Invoice) (ys : List Item)
    (zs : List ManualJournal) (ws : List Payment) :
    (xs.length = 1 ∨ read_invoices_by_id (Except.ok xs) = Except.ok ReadResult.noneFound) ∧
    (ys.length = 1 ∨ read_items_by_id (Except.ok ys) = Except.ok ReadResult.noneFound) ∧
    (zs.length = 1 ∨ read_manual_journals_by_id (Except.ok zs) = Except.ok ReadResult.noneFound) ∧
    (ws.length = 1 ∨ read_payments_by_id (Except.ok ws) = Except.ok ReadResult.noneFound) ∧
    read_items_by_id (Except.error PyError.notFoundException)
      = Except.ok (ReadResult.list []) ∧
    read_manual_journals_by_id (Except.error PyError.notFoundException)
      = Except.error PyError.notFoundException ∧
    read_payments_by_id (Except.error PyError.notFoundException)
      = Except.error PyError.notFoundException := by
  refine ⟨?_, ?_, ?_, ?_, rfl, rfl, rfl⟩
  · rcases xs with _ | ⟨a, _ | ⟨b, rest⟩⟩
    · exact Or.inr rfl
    · exact Or.inl rfl
    · exact Or.inr rfl
  · rcases ys with _ | ⟨a, _ | ⟨b, rest⟩⟩
    · exact Or.inr rfl
    · exact Or.inl rfl
    · exact Or.inr rfl
  · rcases zs with _ | ⟨a, _ | ⟨b, rest⟩⟩
    · exact Or.inr rfl
    · exact Or.inl rfl
    · exact Or.inr rfl
  · rcases ws with _ | ⟨a, _ | ⟨b, rest⟩⟩
    · exact Or.inr rfl
    · exact Or.inl rfl
    · exact Or.inr rfl

/-- Claim C4: the soft-delete marking step maps DRAFT to DELETED, maps
AUTHORISED (invoices) and POSTED (manual journals) to VOIDED, leaves
every other status unchanged, and assigns no field other than status. -/
theorem mark_deleted_status_transition (inv : Invoice) (mj : ManualJournal) :
    ((mark_invoice_deleted inv).status =
      (if inv.status = "DRAFT" then "DELETED"
       else if inv.status = "AUTHORISED" then "VOIDED" else inv.status)) ∧
    (mark_invoice_deleted inv).invoice_id = inv.invoice_id ∧
    (mark_invoice_deleted inv).reference = inv.reference ∧
    ((mark_manual_journal_deleted mj).status =
      (if mj.status = "DRAFT" then "DELETED"
       else if mj.status = "POSTED" then "VOIDED" else mj.status)) ∧
    (mark_manual_journal_deleted mj).manual_journal_id = mj.manual_journal_id ∧
    (mark_manual_journal_deleted mj).narration = mj.narration := by
  refine ⟨?_, ?_, ?_, ?_, ?_, ?_⟩ <;>
    simp only [mark_invoice_deleted, mark_manual_journal_deleted] <;>
    split_ifs <;> rfl

/-- Counterexample to claim C5 as stated, at three concrete inputs:
read_items converts a vendor error of a class other than bad-request
(the not-found class) to an empty list instead of letting it propagate
unmodified; and delete_invoices / delete_manual_journals with an id
selector turn a vendor bad-request raised during their read step into an
uncaught AttributeError (the read handler converts it to [], whose
attribute access in the marking step then raises), so there the caught
bad-request does not end in an empty-list or None result. -/
theorem read_items_swallows_not_found :
    read_items_filter (Except.error PyError.notFoundException) = Except.ok [] ∧
    delete_invoices_by_id (Except.error PyError.accountingBadRequest) (fun l => Except.ok l)
      = Except.error PyError.attributeError ∧
    delete_manual_journals_by_id (Except.error PyError.accountingBadRequest)
      (fun l => Except.ok l) = Except.error PyError.attributeError :=
  ⟨rfl, rfl, rfl⟩

set_option maxRecDepth 16384 in
set_option maxHeartbeats 1000000 in
/-- Claim C5 (amended): for every adapter operation, on every selector
shape, a vendor bad-request error raised by any of its vendor calls is
caught and the vendor error itself is never re-raised; every operation
converts it to its empty result (empty list, None result, zero further
vendor calls on the filter shapes), except delete_invoices and
delete_manual_journals with an id selector, where the read step converts
the bad-request to an empty list whose attribute access in the marking
step then raises an uncaught AttributeError, so those two raise
AttributeError instead of returning a result.  A vendor error of any
other class propagates to the caller unmodified through every operation
and shape, except that read_items (and therefore the read step of
delete_items with a filter selector) additionally catches the vendor
not-found class and converts it to an empty result as well. -/
theorem adapter_error_policy (e : PyError) (inv : Invoice) (mj : ManualJournal)
    (it : Item) (p : Payment) :
    (create_invoices (Except.error PyError.accountingBadRequest) = Except.ok [] ∧
     read_invoices_by_id (Except.error PyError.accountingBadRequest)
       = Except.ok (ReadResult.list []) ∧
     read_invoices_filter (Except.error PyError.accountingBadRequest) = Except.ok [] ∧
     update_invoices (fun _ => Except.error PyError.accountingBadRequest) [] = Except.ok [] ∧
     create_items (Except.error PyError.accountingBadRequest) = Except.ok [] ∧
     read_items_by_id (Except.error PyError.accountingBadRequest)
       = Except.ok (ReadResult.list []) ∧
     read_items_filter (Except.error PyError.accountingBadRequest) = Except.ok [] ∧
     update_items (fun _ => Except.error PyError.accountingBadRequest) [] = Except.ok [] ∧
     delete_items_by_id (Except.error PyError.accountingBadRequest) = Except.ok [] ∧
     create_manual_journals (Except.error PyError.accountingBadRequest) = Except.ok [] ∧
     read_manual_journals_by_id (Except.error PyError.accountingBadRequest)
       = Except.ok (ReadResult.list []) ∧
     read_manual_journals_filter (Except.error PyError.accountingBadRequest) = Except.ok [] ∧
     update_manual_journals (fun _ => Except.error PyError.accountingBadRequest) []
       = Except.ok [] ∧
     create_payments (Except.error PyError.accountingBadRequest) = Except.ok [] ∧
     read_payments_by_id (Except.error PyError.accountingBadRequest)
       = Except.ok (ReadResult.list []) ∧
     read_payments_filter (Except.error PyError.accountingBadRequest) = Except.ok [] ∧
     delete_payments_by_id (Except.error PyError.accountingBadRequest) = Except.ok [] ∧
     read_organizations (Except.error PyError.accountingBadRequest) = Except.ok [] ∧
     get_repeating_invoice (Except.error PyError.accountingBadRequest) = Except.ok none ∧
     get_repeating_invoices (Except.error PyError.accountingBadRequest) = Except.ok []) ∧
    (delete_invoices_by_id (Except.error PyError.accountingBadRequest) (fun l => Except.ok l)
       = Except.error PyError.attributeError ∧
     delete_invoices_by_id (Except.ok [inv]) (fun _ => Except.error PyError.accountingBadRequest)
       = Except.ok [] ∧
     delete_invoices_list (fun _ => Except.error PyError.accountingBadRequest) [inv]
       = Except.ok [] ∧
     delete_invoices_filter (Except.error PyError.accountingBadRequest) (fun l => Except.ok l)
       = (Except.ok [], 0) ∧
     delete_invoices_filter (Except.ok [inv]) (fun _ => Except.error PyError.accountingBadRequest)
       = (Except.ok [], 1) ∧
     delete_manual_journals_by_id (Except.error PyError.accountingBadRequest)
       (fun l => Except.ok l) = Except.error PyError.attributeError ∧
     delete_manual_journals_by_id (Except.ok [mj])
       (fun _ => Except.error PyError.accountingBadRequest) = Except.ok [] ∧
     delete_manual_journals_list (fun _ => Except.error PyError.accountingBadRequest) [mj]
       = Except.ok [] ∧
     delete_manual_journals_filter (Except.error PyError.accountingBadRequest)
       (fun l => Except.ok l) = (Except.ok [], 0) ∧
     delete_manual_journals_filter (Except.ok [mj])
       (fun _ => Except.error PyError.accountingBadRequest) = (Except.ok [], 1) ∧
     delete_items_list (fun _ => Except.error PyError.accountingBadRequest) [it]
       = Except.ok [] ∧
     delete_items_filter (Except.error PyError.accountingBadRequest) (fun _ => Except.ok ())
       = (Except.ok [], 0) ∧
     delete_items_filter (Except.ok [it]) (fun _ => Except.error PyError.accountingBadRequest)
       = (Except.ok [], 1) ∧
     delete_payments_list (fun _ => Except.error PyError.accountingBadRequest) [p]
       = Except.ok [] ∧
     delete_payments_filter (Except.error PyError.accountingBadRequest)
       (fun q => Except.ok [q]) = (Except.ok [], 0) ∧
     delete_payments_filter (Except.ok [p]) (fun _ => Except.error PyError.accountingBadRequest)
       = (Except.ok [], 1)) ∧
    (e = PyError.accountingBadRequest ∨
      (create_invoices (Except.error e) = Except.error e ∧
       read_invoices_by_id (Except.error e) = Except.error e ∧
       read_invoices_filter (Except.error e) = Except.error e ∧
       update_invoices (fun _ => Except.error e) [] = Except.error e ∧
       create_items (Except.error e) = Except.error e ∧
       update_items (fun _ => Except.error e) [] = Except.error e ∧
       delete_items_by_id (Except.error e) = Except.error e ∧
       create_manual_journals (Except.error e) = Except.error e ∧
       read_manual_journals_by_id (Except.error e) = Except.error e ∧
       read_manual_journals_filter (Except.error e) = Except.error e ∧
       update_manual_journals (fun _ => Except.error e) [] = Except.error e ∧
       create_payments (Except.error e) = Except.error e ∧
       read_payments_by_id (Except.error e) = Except.error e ∧
       read_payments_filter (Except.error e) = Except.error e ∧
       delete_payments_by_id (Except.error e) = Except.error e ∧
       read_organizations (Except.error e) = Except.error e ∧
       get_repeating_invoice (Except.error e) = Except.error e ∧
       get_repeating_invoices (Except.error e) = Except.error e)) ∧
    (e = PyError.accountingBadRequest ∨
      (delete_invoices_by_id (Except.error e) (fun l => Except.ok l) = Except.error e ∧
       delete_invoices_by_id (Except.ok [inv]) (fun _ => Except.error e) = Except.error e ∧
       delete_invoices_list (fun _ => Except.error e) [inv] = Except.error e ∧
       delete_invoices_filter (Except.error e) (fun l => Except.ok l) = (Except.error e, 0) ∧
       delete_invoices_filter (Except.ok [inv]) (fun _ => Except.error e)
         = (Except.error e, 1) ∧
       delete_manual_journals_by_id (Except.error e) (fun l => Except.ok l) = Except.error e ∧
       delete_manual_journals_by_id (Except.ok [mj]) (fun _ => Except.error e)
         = Except.error e ∧
       delete_manual_journals_list (fun _ => Except.error e) [mj] = Except.error e ∧
       delete_manual_journals_filter (Except.error e) (fun l => Except.ok l)
         = (Except.error e, 0) ∧
       delete_manual_journals_filter (Except.ok [mj]) (fun _ => Except.error e)
         = (Except.error e, 1) ∧
       delete_items_list (fun _ => Except.error e) [it] = Except.error e ∧
       delete_items_filter (Except.ok [it]) (fun _ => Except.error e) = (Except.error e, 1) ∧
       delete_payments_list (fun _ => Except.error e) [p] = Except.error e ∧
       delete_payments_filter (Except.error e) (fun q => Except.ok [q]) = (Except.error e, 0) ∧
       delete_payments_filter (Except.ok [p]) (fun _ => Except.error e)
         = (Except.error e, 1))) ∧
    (read_items_by_id (Except.error PyError.notFoundException)
       = Except.ok (ReadResult.list []) ∧
     read_items_filter (Except.error PyError.notFoundException) = Except.ok [] ∧
     delete_items_filter (Except.error PyError.notFoundException) (fun _ => Except.ok ())
       = (Except.ok [], 0)) ∧
    (e = PyError.accountingBadRequest ∨ e = PyError.notFoundException ∨
      (read_items_by_id (Except.error e) = Except.error e ∧
       read_items_filter (Except.error e) = Except.error e ∧
       delete_items_filter (Except.error e) (fun _ => Except.ok ()) = (Except.error e, 0))) := by
  cases e <;>
    refine ⟨by decide,
      ⟨rfl, rfl, rfl, rfl, rfl, rfl, rfl, rfl, rfl, rfl, rfl, rfl, rfl, rfl, rfl, rfl⟩,
      ?_, ?_, ⟨rfl, rfl, rfl⟩, ?_⟩ <;>
    first
      | exact Or.inl rfl
      | exact Or.inr (Or.inl rfl)
      | exact Or.inr (by decide)
      | exact Or.inr ⟨rfl, rfl, rfl, rfl, rfl, rfl, rfl, rfl, rfl, rfl, rfl, rfl, rfl, rfl, rfl⟩

/-- Claim C6: for every resource type, delete with a filter selector
whose read step resolves zero entities returns an empty list and issues
zero batch-update (invoices, manual journals) or per-entity vendor
delete (items, payments) calls. -/
theorem delete_filter_zero_matches
    (u : List Invoice → Except PyError (List Invoice))
    (v : List ManualJournal → Except PyError (List ManualJournal))
    (w : Item → Except PyError Unit)
    (x : Payment → Except PyError (List Payment)) :
    delete_invoices_filter (Except.ok []) u = (Except.ok [], 0) ∧
    delete_manual_journals_filter (Except.ok []) v = (Except.ok [], 0) ∧
    delete_items_filter (Except.ok []) w = (Except.ok [], 0) ∧
    delete_payments_filter (Except.ok []) x = (Except.ok [], 0) :=
  ⟨rfl, rfl, rfl, rfl⟩

/-- Claim C7: the token saver upserts a non-null token under the fixed
singleton key and, given a null token, issues a delete-by-key instead. -/
theorem store_oauth2_token_policy (t : OAuthToken) (s1 s2 : Option OAuthToken) :
    store_oauth2_token (some t) s1 = (some t, StoreOp.upsert t) ∧
    store_oauth2_token none s2 = (none, StoreOp.deleteKey) :=
  ⟨rfl, rfl⟩

/-- Claim C8: delete-by-id on an invoice read back with status DRAFT
returns exactly one entity whose status is DELETED and whose reference
and identifier are unchanged from the entity the read returned (the
vendor update echoing the submitted batch). -/
theorem delete_by_id_draft_frame (inv : Invoice) (h : inv.status = "DRAFT") :
    ∃ r, delete_invoices_by_id (Except.ok [inv]) (fun l => Except.ok l) = Except.ok [r] ∧
      r.status = "DELETED" ∧ r.reference = inv.reference ∧ r.invoice_id = inv.invoice_id := by
  refine ⟨{ inv with status := "DELETED" }, ?_, rfl, rfl, rfl⟩
  simp [delete_invoices_by_id, read_invoices_by_id, guard_bad_request,
        mark_invoice_deleted_dyn, mark_invoice_deleted, update_invoices, h]

/-- Witness for C8 at the concrete DRAFT invoice inv_draft. -/
theorem delete_by_id_draft_frame_witness :
    inv_draft.status = "DRAFT" ∧
    ∃ r, delete_invoices_by_id (Except.ok [inv_draft]) (fun l => Except.ok l)
        = Except.ok [r] ∧
      r.status = "DELETED" ∧ r.reference = inv_draft.reference ∧
      r.invoice_id = inv_draft.invoice_id :=
  ⟨rfl, delete_by_id_draft_frame inv_draft rfl⟩

/-- Claim C9: delete_items returns an empty list for every input shape
whenever it returns at all (its only non-empty outcome is a propagated
vendor error), even when every per-item vendor delete succeeds; the
deleted entities are never returned. -/
theorem delete_items_always_empty (v1 : Except PyError Unit)
    (v2 : Item → Except PyError Unit) (items : List Item)
    (v3 : Except PyError (List Item)) :
    (delete_items_by_id v1 = Except.ok [] ∨
      ∃ e, delete_items_by_id v1 = Except.error e) ∧
    (delete_items_list v2 items = Except.ok [] ∨
      ∃ e, delete_items_list v2 items = Except.error e) ∧
    ((delete_items_filter v3 v2).1 = Except.ok [] ∨
      ∃ e, (delete_items_filter v3 v2).1 = Except.error e) := by
  refine ⟨?_, ?_, ?_⟩
  · rcases v1 with e | u
    · cases e <;> simp [delete_items_by_id]
    · simp [delete_items_by_id]
  · rcases h : (run_item_deletes v2 items).1 with e | u
    · cases e <;> simp [delete_items_list, h]
    · simp [delete_items_list, h]
  · rcases hr : read_items_filter v3 with e | l
    · simp [delete_items_filter, hr]
    · rcases l with _ | ⟨a, rest⟩
      · simp [delete_items_filter, hr]
      · rcases h2 : (run_item_deletes v2 (a :: rest)).1 with e | u
        · cases e <;> simp [delete_items_filter, hr, h2]
        · simp [delete_items_filter, hr, h2]

/-- Claim C10: delete_invoices with an id selector applies the marking
step to the read result without a presence check, so when the read by id
yields None (a vendor response without exactly one entity), the
attribute access on None raises AttributeError, which the bad-request
handler does not catch: delete-by-id of a non-existent invoice raises
instead of returning an empty list. -/
theorem delete_by_id_missing_invoice_raises
    (u : List Invoice → Except PyError (List Invoice)) :
    delete_invoices_by_id (Except.ok []) u = Except.error PyError.attributeError := rfl

end IXero
